import Mathlib

/-!
Verification development for the reminder subsystem of a Telegram assistant
bot (files `storage.py` and `main.py`).  The Python source is shallowly
embedded: the SQLite `reminders` table becomes a list of `Reminder` records,
each SQL statement becomes an explicit list transformation, Python `datetime`
values become minute-granularity integer timestamps in the proleptic
Gregorian calendar, and Python exceptions become `Option`/`Except` results.
-/

namespace VibeBot

/-! ## Python string primitives

Models of the Python built-ins used by the source: `str.split`, `str.strip`,
`int(...)`, truthiness of strings, and lexicographic text comparison as
performed by SQLite on `TEXT` columns (byte order, which coincides with
code-point order on the ASCII timestamp strings the program stores). -/

/-- Whitespace recognized by `str.strip` and bare `str.split` (the subset
that can occur in this program's inputs). -/
def pySpace (c : Char) : Bool :=
  c = ' ' || c = '\t' || c = '\n' || c = '\r'

/-- Model of `str.split(sep)` for a single-character separator: splits a
character list at every occurrence of `sep`, keeping empty pieces. -/
def splitChar (sep : Char) : List Char → List (List Char)
  | [] => [[]]
  | c :: rest =>
    match splitChar sep rest with
    | [] => if c = sep then [[], []] else [[c]]
    | t :: ts => if c = sep then [] :: t :: ts else (c :: t) :: ts

/-- Model of bare `str.split()`: tokenize on runs of whitespace, dropping
empty tokens.  The accumulator holds the current token reversed. -/
def wsTokensAux : List Char → List Char → List (List Char)
  | [], acc => if acc.isEmpty then [] else [acc.reverse]
  | c :: rest, acc =>
    if pySpace c then
      if acc.isEmpty then wsTokensAux rest [] else acc.reverse :: wsTokensAux rest []
    else wsTokensAux rest (c :: acc)

/-- Model of `s.split()` (whitespace tokenization) on a string. -/
def pySplitWs (s : String) : List String :=
  (wsTokensAux s.data []).map String.mk

/-- Model of `s.split(sep)` on a string. -/
def pySplit (s : String) (sep : Char) : List String :=
  (splitChar sep s.data).map String.mk

/-- Model of `str.strip()`: drop leading and trailing whitespace. -/
def pyStrip (s : String) : String :=
  String.mk (((s.data.dropWhile pySpace).reverse.dropWhile pySpace).reverse)

/-- Decimal digit test. -/
def isDigitCh (c : Char) : Bool := '0' ≤ c && c ≤ '9'

/-- Numeric value of a list of characters, all assumed digits. -/
def digitsVal (l : List Char) : Nat :=
  l.foldl (fun acc c => acc * 10 + (c.toNat - 48)) 0

/-- Parse a nonempty all-digit character list, as matched by a `\d+`-style
field of `strptime` or a regular expression. -/
def digitsOnly (l : List Char) : Option Nat :=
  if l ≠ [] && l.all isDigitCh then some (digitsVal l) else none

/-- Model of Python `int(s)` on a string: optional surrounding whitespace,
optional sign, then a nonempty digit run; anything else raises, modelled as
`none`. -/
def pyIntChars (l : List Char) : Option Int :=
  let l := (l.dropWhile pySpace).reverse.dropWhile pySpace |>.reverse
  match l with
  | '-' :: rest => (digitsOnly rest).map (fun n => -(n : Int))
  | '+' :: rest => (digitsOnly rest).map (fun n => (n : Int))
  | _ => (digitsOnly l).map (fun n => (n : Int))

/-- Model of Python `int(s)`. -/
def pyInt (s : String) : Option Int := pyIntChars s.data

/-- Python truthiness of an optional string (`None` and `""` are falsy). -/
def truthyS : Option String → Bool
  | none => false
  | some s => !s.data.isEmpty

/-- Python truthiness of an optional integer (`None` and `0` are falsy). -/
def truthyI : Option Int → Bool
  | none => false
  | some n => n ≠ 0

/-- Byte-order strict comparison of two character lists (pure ASCII in all
stored timestamps, so code-point order equals SQLite byte order). -/
def strLtB : List Char → List Char → Bool
  | [], [] => false
  | [], _ :: _ => true
  | _ :: _, [] => false
  | a :: as, b :: bs =>
    if a.toNat < b.toNat then true
    else if b.toNat < a.toNat then false
    else strLtB as bs

/-- SQLite `TEXT` comparison `a <= b`. -/
def sqlLeStr (a b : String) : Bool := !(strLtB b.data a.data)

/-! ## Calendar and timestamps

Python `datetime` values are modelled as minutes since 0000-03-01 00:00
(proleptic Gregorian).  The program's timezone is a fixed-offset zone with
no DST transition, so aware-datetime arithmetic coincides with naive
minute arithmetic.  `daysFromCivil`/`civilFromDays` are the standard O(1)
era-based conversions. -/

/-- Gregorian leap-year rule. -/
def isLeap (y : Nat) : Bool := (y % 4 = 0 && y % 100 ≠ 0) || y % 400 = 0

/-- Days in a month. -/
def daysInMonth (y m : Nat) : Nat :=
  if m = 1 || m = 3 || m = 5 || m = 7 || m = 8 || m = 10 || m = 12 then 31
  else if m = 4 || m = 6 || m = 9 || m = 11 then 30
  else if isLeap y then 29 else 28

/-- Day count of a civil date, measured from 0000-03-01. -/
def daysFromCivil (y m d : Nat) : Nat :=
  let y' := if m ≤ 2 then y - 1 else y
  let era := y' / 400
  let yoe := y' % 400
  let mp := (m + 9) % 12
  let doy := (153 * mp + 2) / 5 + d - 1
  let doe := yoe * 365 + yoe / 4 - yoe / 100 + doy
  era * 146097 + doe

/-- Inverse of `daysFromCivil`: day count back to `(year, month, day)`. -/
def civilFromDays (z : Nat) : Nat × Nat × Nat :=
  let era := z / 146097
  let doe := z % 146097
  let yoe := (doe - doe / 1460 + doe / 36524 - doe / 146096) / 365
  let y0 := yoe + era * 400
  let doy := doe - (365 * yoe + yoe / 4 - yoe / 100)
  let mp := (5 * doy + 2) / 153
  let d := doy - (153 * mp + 2) / 5 + 1
  let m := if mp < 10 then mp + 3 else mp - 9
  (if m ≤ 2 then y0 + 1 else y0, m, d)

/-- Minute timestamp of a civil date and wall-clock time. -/
def tsOf (y m d hh mm : Nat) : Int :=
  ((daysFromCivil y m d * 1440 + hh * 60 + mm : Nat) : Int)

/-- Midnight of the timestamp's day, the model of
`dt.replace(hour=0, minute=0, second=0, microsecond=0)`. -/
def dayStart (t : Int) : Int := t - t.emod 1440

/-- Weekday with Monday = 0, the model of `dt.weekday()`
(0000-03-01 is a Wednesday). -/
def weekdayOf (t : Int) : Int := (t.ediv 1440 + 2).emod 7

/-- Two-digit zero-padded decimal, as in `f"{n:02d}"` and `strftime`. -/
def pad2 (n : Nat) : String := if n < 10 then "0" ++ Nat.repr n else Nat.repr n

/-- Four-digit zero-padded year as produced by `strftime("%Y")` for the
years this program handles. -/
def pad4 (n : Nat) : String :=
  if n < 10 then "000" ++ Nat.repr n
  else if n < 100 then "00" ++ Nat.repr n
  else if n < 1000 then "0" ++ Nat.repr n
  else Nat.repr n

/-- Model of `dt.strftime("%Y-%m-%d %H:%M")`. -/
def fmtTs (t : Int) : String :=
  let tn := t.toNat
  let days := tn / 1440
  let rem := tn % 1440
  match civilFromDays days with
  | (y, m, d) =>
    pad4 y ++ "-" ++ pad2 m ++ "-" ++ pad2 d ++ " " ++ pad2 (rem / 60) ++ ":" ++ pad2 (rem % 60)

/-- Model of `datetime.strptime(s, "%Y-%m-%d %H:%M")`: `none` when the
string does not match the format or names an invalid date. -/
def parseDT (s : String) : Option Int :=
  match pySplit s ' ' with
  | [datePart, timePart] =>
    match pySplit datePart '-', pySplit timePart ':' with
    | [ys, ms, ds], [hs, mins] =>
      match digitsOnly ys.data, digitsOnly ms.data, digitsOnly ds.data,
            digitsOnly hs.data, digitsOnly mins.data with
      | some y, some m, some d, some hh, some mm =>
        if 1 ≤ m && m ≤ 12 && 1 ≤ d && d ≤ daysInMonth y m && hh ≤ 23 && mm ≤ 59 then
          some (tsOf y m d hh mm)
        else none
      | _, _, _, _, _ => none
    | _, _ => none
  | _ => none

/-! ## Data model

One row of the SQLite `reminders` table (`storage.py`, `_init_schema`).
`NULL`-able columns are `Option`s; the two flag columns hold 0/1 and are
modelled as `Bool`.  The store is the list of rows in rowid (insertion)
order, which is the order SQLite returns rows in when no `ORDER BY` is
given and the order `fetchone` picks the first row from. -/

structure Reminder where
  id : Int
  user_id : Int
  time_hhmm : String
  text : String
  last_sent_date : Option String := none
  date_once : Option String := none
  weekdays : Option String := none
  weekday_only : Bool := false
  weekend_only : Bool := false
  snooze_until : Option String := none
  period_minutes : Option Int := none
  window_start_hhmm : Option String := none
  window_end_hhmm : Option String := none
  next_fire_at : Option String := none
deriving DecidableEq, Repr, Inhabited

/-- Payload dictionary built by `get_due_reminders` for one due reminder.
The time-match and snooze passes build `{"id", "time", "text"}` dictionaries
(the snooze pass adds `"periodic": None`); the periodic pass sets
`"time": None` and `"periodic": True`.  `periodic` here models the caller's
check `reminder.get('periodic') is True`. -/
structure DueItem where
  id : Int
  time : Option String
  text : String
  periodic : Bool
deriving DecidableEq, Repr

/-! ## Due-reminder evaluator (`Storage.get_due_reminders`) -/

/-- Model of `{int(x) for x in weekdays_str.split(',') if x}`: empty pieces
are dropped before conversion; `none` models the `ValueError` raised when a
remaining piece is not an integer literal. -/
def parseWeekdaySet (s : String) : Option (List Int) :=
  ((pySplit s ',').filter (fun t => !t.data.isEmpty)).mapM pyInt

/-- Predicate kept by the time-match pass: the SQL filter
`time_hhmm = now AND (last_sent_date IS NULL OR last_sent_date <> today)`
followed by the Python schedule-kind filters (`date_once`, `weekday_only`,
`weekend_only`, explicit weekday set).  An unparseable weekday set yields
`allowed = set()`, so the weekday test fails. -/
def timeMatchKeep (hhmm today : String) (widx : Int) (r : Reminder) : Bool :=
  r.time_hhmm = hhmm && r.last_sent_date ≠ some today &&
  !(truthyS r.date_once && r.date_once.getD "" ≠ today) &&
  !(r.weekday_only && !(0 ≤ widx && widx ≤ 4)) &&
  !(r.weekend_only && !(5 ≤ widx && widx ≤ 6)) &&
  !(truthyS r.weekdays &&
    widx ∉ ((parseWeekdaySet (r.weekdays.getD "")).getD []))

/-- Predicate of the snooze pass:
`snooze_until IS NOT NULL AND snooze_until <= now_iso`. -/
def snoozeKeep (now_iso : String) (r : Reminder) : Bool :=
  match r.snooze_until with
  | some s => sqlLeStr s now_iso
  | none => false

/-- Predicate of the periodic pass:
`period_minutes IS NOT NULL AND next_fire_at IS NOT NULL AND next_fire_at <= now_iso`. -/
def periodicKeep (now_iso : String) (r : Reminder) : Bool :=
  r.period_minutes ≠ none &&
  match r.next_fire_at with
  | some nf => sqlLeStr nf now_iso
  | none => false

/-- Entry emitted by the time-match pass. -/
def timeMatchEntry (r : Reminder) : Int × DueItem × Bool :=
  (r.user_id, ⟨r.id, some r.time_hhmm, r.text, false⟩, false)

/-- Entry emitted by the snooze pass (`is_snooze = True`). -/
def snoozeEntry (r : Reminder) : Int × DueItem × Bool :=
  (r.user_id, ⟨r.id, some r.time_hhmm, r.text, false⟩, true)

/-- Entry emitted by the periodic pass (`periodic = True`). -/
def periodicEntry (r : Reminder) : Int × DueItem × Bool :=
  (r.user_id, ⟨r.id, none, r.text, true⟩, false)

/-- The time-match pass over the store. -/
def timeMatchPass (hhmm today : String) (widx : Int) (store : List Reminder) :
    List (Int × DueItem × Bool) :=
  (store.filter (timeMatchKeep hhmm today widx)).map timeMatchEntry

/-- Model of `Storage.get_due_reminders(time_hh_mm, today_date, weekday_idx,
now_iso)`: the three passes concatenated in source order. -/
def getDueReminders (store : List Reminder) (hhmm today : String) (widx : Int)
    (now_iso : String) : List (Int × DueItem × Bool) :=
  timeMatchPass hhmm today widx store
    ++ (store.filter (snoozeKeep now_iso)).map snoozeEntry
    ++ (store.filter (periodicKeep now_iso)).map periodicEntry

/-! ## Periodic rescheduler

The candidate-advancing loop shared (as duplicated code) by
`Storage.add_reminder` and `Storage.bump_periodic_next_fire`.  The loop is
parametrized by the closures `is_day_allowed` and `window_bounds`; the two
call sites build slightly different closures, modelled below.  The source
loop carries a `steps` counter and breaks once `steps > 365`; the model
keeps the same counter as fuel and also returns the number of iterations
executed. -/

/-- Model of `[int(x) for x in s.split(":")]` followed by unpacking into
exactly two values: `none` when a piece is not an integer or the count is
not two. -/
def parseHM (s : String) : Option (Int × Int) :=
  match (pySplit s ':').mapM pyInt with
  | some [h, m] => some (h, m)
  | _ => none

/-- Model of the `window_bounds(dt)` closures: both window strings must be
truthy, parse as two integers each, and be in range for `dt.replace`
(whose `ValueError` the `except` turns into `None`). -/
def windowBoundsAt (wndS wndE : Option String) (dt : Int) : Option (Int × Int) :=
  if truthyS wndS && truthyS wndE then
    match parseHM (wndS.getD ""), parseHM (wndE.getD "") with
    | some (sh, sm), some (eh, em) =>
      if 0 ≤ sh ∧ sh ≤ 23 ∧ 0 ≤ sm ∧ sm ≤ 59 ∧ 0 ≤ eh ∧ eh ≤ 23 ∧ 0 ≤ em ∧ em ≤ 59 then
        some (dayStart dt + sh * 60 + sm, dayStart dt + eh * 60 + em)
      else none
    | _, _ => none
  else none

/-- Model of `is_day_allowed` as defined inside `bump_periodic_next_fire`:
day flags, then the weekday set re-parsed from its stored string; a parse
failure is fail-open (`return True`). -/
def dayAllowedRow (wkOnly weOnly : Bool) (wds : Option String) (dt : Int) : Bool :=
  let idx := weekdayOf dt
  if wkOnly ∧ 4 < idx then false
  else if weOnly ∧ idx < 5 then false
  else if truthyS wds then
    match parseWeekdaySet (wds.getD "") with
    | some l => idx ∈ l
    | none => true
  else true

/-- Model of `is_day_allowed` as defined inside `add_reminder`: the weekday
set is still a Python list of ints here, so membership never raises. -/
def dayAllowedAdd (wkOnly weOnly : Bool) (weekdays : Option (List Int)) (dt : Int) : Bool :=
  let idx := weekdayOf dt
  if wkOnly ∧ 4 < idx then false
  else if weOnly ∧ idx < 5 then false
  else
    match weekdays with
    | some l => if l ≠ [] then idx ∈ l else true
    | none => true

/-- One-per-iteration model of the `while True` loop of the rescheduler,
returning the final candidate and the number of iterations executed.  Fuel
models the `steps` counter: the source breaks out with the current
candidate when `steps > 365`, i.e. after 365 executed iterations. -/
def fireLoopT (per : Int) (allowed : Int → Bool) (wb : Int → Option (Int × Int)) :
    Nat → Int → Int × Nat
  | 0, fire => (fire, 0)
  | n + 1, fire =>
    let f1 := if allowed fire then fire else dayStart fire + 1440
    match wb f1 with
    | some (ws, we) =>
      if f1 < ws then
        -- clamped to window start; the break test re-reads the clamped value
        if ws ≤ we ∧ allowed ws then (ws, 1)
        else
          let p := fireLoopT per allowed wb n (ws + per)
          (p.1, p.2 + 1)
      else if we < f1 then
        -- past the window: roll to window start next day and `continue`
        let p := fireLoopT per allowed wb n (ws + 1440)
        (p.1, p.2 + 1)
      else if allowed f1 then (f1, 1)
      else
        let p := fireLoopT per allowed wb n (f1 + per)
        (p.1, p.2 + 1)
    | none =>
      if allowed f1 then (f1, 1)
      else
        let p := fireLoopT per allowed wb n (f1 + per)
        (p.1, p.2 + 1)

/-- Entry point of the rescheduler: the initial candidate is
`base + period_minutes` and the loop runs with cap 365. -/
def nextFireAfter (per : Int) (allowed : Int → Bool) (wb : Int → Option (Int × Int))
    (base : Int) : Int :=
  (fireLoopT per allowed wb 365 (base + per)).1

/-! ## Store mutations -/

/-- Model of `Storage.mark_reminder_sent`:
`UPDATE reminders SET last_sent_date=?, snooze_until=NULL WHERE user_id=? AND id=?`. -/
def markReminderSent (uid rid : Int) (today : String) (store : List Reminder) : List Reminder :=
  store.map fun r =>
    if r.user_id = uid ∧ r.id = rid then
      { r with last_sent_date := some today, snooze_until := none }
    else r

/-- Model of `Storage.clear_snooze`:
`UPDATE reminders SET snooze_until=NULL WHERE user_id=? AND id=?`. -/
def clearSnooze (uid rid : Int) (store : List Reminder) : List Reminder :=
  store.map fun r =>
    if r.user_id = uid ∧ r.id = rid then { r with snooze_until := none } else r

/-- Model of `Storage.set_reminder_snooze`:
`UPDATE reminders SET snooze_until=? WHERE user_id=? AND id=?`. -/
def setReminderSnooze (uid rid : Int) (iso : String) (store : List Reminder) : List Reminder :=
  store.map fun r =>
    if r.user_id = uid ∧ r.id = rid then { r with snooze_until := some iso } else r

/-- Model of `Storage.bump_periodic_next_fire`: fetch the row, return the
store unchanged when it is missing or `period_minutes` is falsy, otherwise
recompute the candidate from `now_iso` and update `next_fire_at`, clearing
`snooze_until`.  `none` models the uncaught exception of a `strptime`
failure. -/
def bumpPeriodicNextFire (uid rid : Int) (now_iso : String) (store : List Reminder) :
    Option (List Reminder) :=
  match store.find? (fun r => r.user_id = uid ∧ r.id = rid) with
  | none => some store
  | some row =>
    if !truthyI row.period_minutes then some store
    else
      match parseDT now_iso with
      | none => none
      | some base =>
        let per := row.period_minutes.getD 0
        let fire := nextFireAfter per
          (dayAllowedRow row.weekday_only row.weekend_only row.weekdays)
          (windowBoundsAt row.window_start_hhmm row.window_end_hhmm) base
        some (store.map fun r =>
          if r.user_id = uid ∧ r.id = rid then
            { r with next_fire_at := some (fmtTs fire), snooze_until := none }
          else r)

/-- Store effect of one successfully delivered reminder in `reminders_loop`
(`main.py`): `clear_snooze` when `is_snooze`, otherwise `mark_reminder_sent`;
then, whenever the payload carries `periodic=True`, also
`bump_periodic_next_fire`. -/
def applyDispatch (uid : Int) (item : DueItem) (is_snooze : Bool) (today now_iso : String)
    (store : List Reminder) : Option (List Reminder) :=
  let s1 := if is_snooze then clearSnooze uid item.id store
            else markReminderSent uid item.id today store
  if item.periodic then bumpPeriodicNextFire uid item.id now_iso s1 else some s1

/-! ## Reminder creation (`Storage.add_reminder`) -/

/-- Model of the time validation block of `add_reminder`: split on the colon
into exactly two pieces, convert both with `int`, and require the
`0 <= hours <= 23 and 0 <= minutes <= 59` range; any failure raises the
`ValueError` modelled as `none`. -/
def parseTimeHM (s : String) : Option (Nat × Nat) :=
  match pySplit s ':' with
  | [hs, ms] =>
    match pyInt hs, pyInt ms with
    | some h, some m =>
      if 0 ≤ h ∧ h ≤ 23 ∧ 0 ≤ m ∧ m ≤ 59 then some (h.toNat, m.toNat) else none
    | _, _ => none
  | _ => none

/-- Insertion into a list sorted by `le`. -/
def insertBy (le : α → α → Bool) (a : α) : List α → List α
  | [] => [a]
  | b :: bs => if le a b then a :: b :: bs else b :: insertBy le a bs

/-- Insertion sort, the model of Python `sorted` and of SQL `ORDER BY` for
the keys used here (which are duplicate-free or of equal elements). -/
def sortBy (le : α → α → Bool) : List α → List α
  | [] => []
  | a :: as => insertBy le a (sortBy le as)

/-- The validation error message of `add_reminder`. -/
def timeFormatError : String :=
  "Неверный формат времени. Используйте HH:MM, например 09:30"

/-- The dictionary returned by a successful `add_reminder`. -/
structure AddResult where
  id : Int
  time : String
  text : String
deriving DecidableEq, Repr

/-- Model of `Storage.add_reminder`.  `nowTs` stands for
`datetime.now(LOCAL_TZ)` and `nextId` for the AUTOINCREMENT id the insert
receives.  On validation failure the error is raised before any write, so
no store is returned; on success the new row is appended. -/
def addReminder (uid : Int) (time_hh_mm text : String) (date_once : Option String)
    (weekdays : Option (List Int)) (weekday_only weekend_only : Bool)
    (period_minutes : Option Int) (window_start_hhmm window_end_hhmm : Option String)
    (nowTs : Int) (nextId : Int) (store : List Reminder) :
    Except String (List Reminder × AddResult) :=
  match parseTimeHM time_hh_mm with
  | none => .error timeFormatError
  | some (hours, minutes) =>
    let weekdays_str : Option String :=
      match weekdays with
      | some l =>
        if l ≠ [] then
          some (String.intercalate "," ((sortBy (fun a b : Int => a ≤ b) l).map toString))
        else none
      | none => none
    let next_fire_at : Option String :=
      match period_minutes with
      | some p =>
        if 0 < p then
          some (fmtTs (nextFireAfter p (dayAllowedAdd weekday_only weekend_only weekdays)
            (windowBoundsAt window_start_hhmm window_end_hhmm) nowTs))
        else none
      | none => none
    let storedPeriod : Option Int :=
      match period_minutes with
      | some p => if p ≠ 0 then some p else none
      | none => none
    let timeStr := pad2 hours ++ ":" ++ pad2 minutes
    let row : Reminder :=
      { id := nextId, user_id := uid, time_hhmm := timeStr, text := pyStrip text,
        date_once := date_once, weekdays := weekdays_str, weekday_only := weekday_only,
        weekend_only := weekend_only, period_minutes := storedPeriod,
        window_start_hhmm := window_start_hhmm, window_end_hhmm := window_end_hhmm,
        next_fire_at := next_fire_at }
    .ok (store ++ [row], ⟨nextId, timeStr, pyStrip text⟩)

/-! ## Listing and deletion -/

/-- Listing order of `list_reminders`: `ORDER BY time_hhmm ASC, id ASC`. -/
def remLe (a b : Reminder) : Bool :=
  strLtB a.time_hhmm.data b.time_hhmm.data || (a.time_hhmm = b.time_hhmm && a.id ≤ b.id)

/-- Model of `Storage.list_reminders`: the user's rows in listing order
(kept as full rows; the source projects them to dictionaries that preserve
`id` and `time`, which is all `delete_reminder` reads). -/
def listReminders (uid : Int) (store : List Reminder) : List Reminder :=
  sortBy remLe (store.filter (fun r => r.user_id = uid))

/-- Model of `Storage.delete_reminder`: first
`DELETE FROM reminders WHERE user_id=? AND id=?`; when that removed no row,
fall back to the `identifier`-th entry (1-based) of the user's listing and
delete that reminder by its real id.  Returns the new store and the boolean
result. -/
def deleteReminder (uid ident : Int) (store : List Reminder) : List Reminder × Bool :=
  let hits := store.filter (fun r => r.user_id = uid ∧ r.id = ident)
  if 0 < hits.length then
    (store.filter (fun r => ¬(r.user_id = uid ∧ r.id = ident)), true)
  else
    let items := listReminders uid store
    let idx := ident - 1
    if 0 ≤ idx ∧ idx < (items.length : Int) then
      let realId := (items.getD idx.toNat default).id
      (store.filter (fun r => ¬(r.user_id = uid ∧ r.id = realId)), true)
    else (store, false)

/-! ## Command layer (`main.py`) -/

/-- The weekday-token table of `cmd_remind`. -/
def daysMap : List (String × Int) :=
  [("пн", 0), ("вт", 1), ("ср", 2), ("чт", 3), ("пт", 4), ("сб", 5), ("вс", 6)]

/-- Lowercasing for the alphabets `cmd_remind` deals with (ASCII and
Cyrillic), the relevant fragment of `str.lower`. -/
def pyLowerChar (c : Char) : Char :=
  if 'A' ≤ c ∧ c ≤ 'Z' then Char.ofNat (c.toNat + 32)
  else if 'А' ≤ c ∧ c ≤ 'Я' then Char.ofNat (c.toNat + 32)
  else if c = 'Ё' then 'ё' else c

/-- Model of `str.lower` on the strings used by `cmd_remind`. -/
def pyLower (s : String) : String := String.mk (s.data.map pyLowerChar)

/-- Model of the day-list parse of `cmd_remind`:
`[days_map[d.strip().lower()] for d in days_part.split(',') if d.strip().lower() in days_map]`.
Tokens not in the table are dropped silently. -/
def parseDaysPart (s : String) : List Int :=
  (pySplit s ',').filterMap (fun d => daysMap.lookup (pyLower (pyStrip d)))

/-- Reply of `cmd_snooze` when fewer than two words are present. -/
def snoozeUsage : String := "Формат: /snooze ID [минуты]. Пример: /snooze 5 10"

/-- Reply of `cmd_snooze` when the id or the minutes fail `int()`. -/
def snoozeBadParams : String := "Некорректные параметры. Пример: /snooze 5 10"

/-- Model of the `cmd_snooze` handler (`/snooze ID [минуты]`, default 10):
the store it leaves behind and the reply it sends.  The handler computes
`snooze_until` and then calls `storage.set_reminder_snooze(...)` without
`await`; the coroutine is created and discarded, its body never runs, so
the store is returned unchanged even on the success path. -/
def cmdSnooze (msgText : String) (_uid : Int) (nowTs : Int) (store : List Reminder) :
    List Reminder × String :=
  let parts := pySplitWs msgText
  if parts.length < 2 then (store, snoozeUsage)
  else
    match pyInt (parts.getD 1 ""), (if 3 ≤ parts.length then pyInt (parts.getD 2 "") else some 10) with
    | some rid, some minutes =>
      let _snoozeIso := fmtTs (nowTs + minutes)
      (store, "Напоминание [" ++ toString rid ++ "] отложено на " ++ toString minutes ++ " минут")
    | _, _ => (store, snoozeBadParams)

/-! ## Concrete fixtures

Concrete store rows used by counterexamples and witnesses.
2025-06-02 is a Monday (weekday index 0). -/

/-- Periodic reminder (every 30 minutes, no window) whose `time_hhmm` also
matches the 09:00 tick and whose `next_fire_at` is due at that tick. -/
def waterReminder : Reminder :=
  { id := 1, user_id := 7, time_hhmm := "09:00", text := "вода",
    period_minutes := some 30, next_fire_at := some "2025-06-02 09:00" }

/-- Reminder whose stored weekday set is the unparseable string `"пн"`
(a day token persisted raw instead of an integer list). -/
def mondayBroken : Reminder :=
  { id := 2, user_id := 7, time_hhmm := "09:00", text := "зарядка",
    weekdays := some "пн" }

/-- Periodic reminder with `period_minutes=60` and window 09:00–21:00. -/
def periodicHourly : Reminder :=
  { id := 3, user_id := 7, time_hhmm := "09:00", text := "вода",
    period_minutes := some 60, window_start_hhmm := some "09:00",
    window_end_hhmm := some "21:00", next_fire_at := some "2025-06-02 08:30" }

/-- Daily reminder already marked sent today, with a snooze due in the
past. -/
def snoozedDaily : Reminder :=
  { id := 4, user_id := 7, time_hhmm := "09:00", text := "обед",
    last_sent_date := some "2025-06-02", snooze_until := some "2025-06-02 08:55" }

/-- Plain daily reminder with no snooze set. -/
def lunchReminder : Reminder :=
  { id := 1, user_id := 7, time_hhmm := "13:00", text := "обед" }

/-- The `waterReminder` row after a successful periodic dispatch at the
2025-06-02 09:00 tick: `last_sent_date` set by `mark_reminder_sent` and
`next_fire_at` advanced by `bump_periodic_next_fire`. -/
def waterReminderSent : Reminder :=
  { waterReminder with last_sent_date := some "2025-06-02",
                       next_fire_at := some "2025-06-02 09:30" }

/-- Rows for the deletion scenario: two reminders of user 7 (ids 5 and 3,
listing order id 5 then id 3 by time) and one of user 8. -/
def remA : Reminder := { id := 5, user_id := 7, time_hhmm := "09:00", text := "a" }

/-- Second reminder of user 7, later in listing order than `remA`. -/
def remB : Reminder := { id := 3, user_id := 7, time_hhmm := "10:00", text := "b" }

/-- Reminder of another user. -/
def remC : Reminder := { id := 9, user_id := 8, time_hhmm := "08:00", text := "c" }

/-! ## Helper lemmas -/

/-- A pass of `get_due_reminders` built as filter-then-map emits, for any
id, at most as many entries as the store has rows with that id, provided
the emitted payload keeps the row's id. -/
theorem count_pass_le (l : List Reminder) (keep : Reminder → Bool)
    (f : Reminder → Int × DueItem × Bool) (i : Int)
    (hf : ∀ r, ((f r).2.1).id = r.id) :
    ((l.filter keep).map f).countP (fun e => e.2.1.id == i)
      ≤ l.countP (fun r => r.id == i) := by
  induction l with
  | nil => simp
  | cons a as ih =>
    rw [List.filter_cons, List.countP_cons]
    by_cases h : keep a
    · rw [if_pos h, List.map_cons, List.countP_cons]
      have : (((f a).2.1).id == i) = (a.id == i) := by rw [hf a]
      rw [this]
      omega
    · rw [if_neg h]
      omega

/-- The rescheduler loop executes at most as many iterations as its fuel. -/
theorem fireLoopT_iters_le (per : Int) (allowed : Int → Bool)
    (wb : Int → Option (Int × Int)) (n : Nat) (fire : Int) :
    (fireLoopT per allowed wb n fire).2 ≤ n := by
  induction n generalizing fire with
  | zero => simp [fireLoopT]
  | succ n ih =>
    rw [fireLoopT]
    repeat' split
    all_goals simp only []
    all_goals first
      | exact Nat.le_succ_of_le (Nat.le_of_eq rfl)
      | exact Nat.succ_le_succ (Nat.zero_le n)
      | exact Nat.succ_le_succ (ih _)

/-! ## Claim C1 -/

/-- Claim C1 is false as stated: the time-match query of
`get_due_reminders` has no non-periodic restriction, so a periodic reminder
whose `time_hhmm` equals the current minute and whose `next_fire_at` is due
is emitted both by the time-match pass and by the periodic pass — it
appears twice in one evaluation of a single-row store. -/
theorem due_reminder_appears_twice :
    (getDueReminders [waterReminder] "09:00" "2025-06-02" 0 "2025-06-02 09:00").countP
      (fun e => e.2.1.id == 1) = 2 := by decide

/-- Claim C1, amended: each of the three passes emits a given reminder at
most once, so an id occurring once in the store occurs at most three times
in the result (the passes are not mutually exclusive: the time-match pass
does not exclude periodic reminders). -/
theorem due_reminder_at_most_thrice (store : List Reminder) (hhmm today : String)
    (widx : Int) (now_iso : String) (i : Int) :
    (getDueReminders store hhmm today widx now_iso).countP (fun e => e.2.1.id == i)
      ≤ 3 * store.countP (fun r => r.id == i) := by
  unfold getDueReminders timeMatchPass
  rw [List.countP_append, List.countP_append]
  have h1 := count_pass_le store (timeMatchKeep hhmm today widx) timeMatchEntry i
    (fun r => rfl)
  have h2 := count_pass_le store (snoozeKeep now_iso) snoozeEntry i (fun r => rfl)
  have h3 := count_pass_le store (periodicKeep now_iso) periodicEntry i (fun r => rfl)
  omega

/-! ## Claim C2 -/

/-- Claim C2 is false as stated: a reminder whose stored weekday set is
unparseable is skipped by the evaluator, not emitted.  Here the time
matches, `last_sent_date` is null and the weekday is Monday, yet the
result is empty. -/
theorem malformed_weekdays_reminder_skipped :
    getDueReminders [mondayBroken] "09:00" "2025-06-02" 0 "2025-06-02 09:00" = [] := by
  decide

/-- Claim C2, amended: an unparseable weekday set makes `get_due_reminders`
treat the allowed set as empty (fail-closed): the time-match pass never
keeps such a reminder, on any tick, and no exception escapes (the model is
total). -/
theorem malformed_weekdays_fail_closed (hhmm today : String) (widx : Int)
    (r : Reminder) (s : String) (hw : r.weekdays = some s) (hne : s ≠ "")
    (hp : parseWeekdaySet s = none) :
    timeMatchKeep hhmm today widx r = false ∧ timeMatchPass hhmm today widx [r] = [] := by
  have hdata : s.data.isEmpty = false := by
    cases s with
    | mk l =>
      cases l with
      | nil => exact absurd rfl hne
      | cons a as => rfl
  have hkeep : timeMatchKeep hhmm today widx r = false := by
    simp [timeMatchKeep, hw, truthyS, hdata, hp]
  exact ⟨hkeep, by simp [timeMatchPass, List.filter, hkeep]⟩

/-- Witness for the amended C2 at the concrete fixture. -/
theorem malformed_weekdays_fail_closed_witness :
    timeMatchKeep "09:00" "2025-06-02" 0 mondayBroken = false
    ∧ timeMatchPass "09:00" "2025-06-02" 0 [mondayBroken] = [] :=
  malformed_weekdays_fail_closed "09:00" "2025-06-02" 0 mondayBroken "пн" rfl
    (by decide) (by decide)

/-! ## Claim C3 -/

/-- Claim C3 is false in its second half: from a base of 08:30 the
rescheduler yields 09:30 the same day (the candidate 08:30+60min already
lies inside the window and is kept), not 09:00. -/
theorem next_fire_from_0830_is_0930 :
    bumpPeriodicNextFire 7 3 "2025-06-02 08:30" [periodicHourly]
      = some [{ periodicHourly with next_fire_at := some "2025-06-02 09:30" }]
    ∧ bumpPeriodicNextFire 7 3 "2025-06-02 08:30" [periodicHourly]
      ≠ some [{ periodicHourly with next_fire_at := some "2025-06-02 09:00" }] := by
  constructor <;> decide

/-- Claim C3, amended: with `period_minutes=60` and window 09:00–21:00, the
next fire after a 20:30 base is 09:00 the next day (not 21:30), and after
an 08:30 base it is 09:30 the same day (clamping to the window start only
happens when the candidate falls before it).  Stated both on the stored
row via `bump_periodic_next_fire` and on the bare rescheduler. -/
theorem next_fire_window_examples :
    bumpPeriodicNextFire 7 3 "2025-06-02 20:30" [periodicHourly]
      = some [{ periodicHourly with next_fire_at := some "2025-06-03 09:00" }]
    ∧ bumpPeriodicNextFire 7 3 "2025-06-02 08:30" [periodicHourly]
      = some [{ periodicHourly with next_fire_at := some "2025-06-02 09:30" }]
    ∧ nextFireAfter 60 (dayAllowedRow false false none)
        (windowBoundsAt (some "09:00") (some "21:00")) (tsOf 2025 6 2 20 30)
      = tsOf 2025 6 3 9 0
    ∧ nextFireAfter 60 (dayAllowedRow false false none)
        (windowBoundsAt (some "09:00") (some "21:00")) (tsOf 2025 6 2 8 30)
      = tsOf 2025 6 2 9 30 := by
  exact ⟨by decide, by decide, by decide, by decide⟩

/-! ## Claim C8 -/

set_option maxRecDepth 20000 in
/-- Claim C8: the rescheduler's candidate loop always terminates within the
365-iteration cap; with zero fuel left it returns the current candidate
unchanged (the source breaks with the last computed candidate once
`steps > 365`); and a configuration admitting no valid slot (weekday set
`{9}`) indeed exhausts exactly 365 iterations and still returns a value. -/
theorem rescheduler_iteration_cap :
    (∀ (per : Int) (wkOnly weOnly : Bool) (wds wndS wndE : Option String) (base : Int),
      (fireLoopT per (dayAllowedRow wkOnly weOnly wds)
        (windowBoundsAt wndS wndE) 365 (base + per)).2 ≤ 365)
    ∧ (∀ (per : Int) (allowed : Int → Bool) (wb : Int → Option (Int × Int)) (fire : Int),
      fireLoopT per allowed wb 0 fire = (fire, 0))
    ∧ (fireLoopT 60 (dayAllowedRow false false (some "9")) (windowBoundsAt none none) 365
        (tsOf 2025 6 2 8 30 + 60)).2 = 365 := by
  refine ⟨?_, fun _ _ _ _ => rfl, by decide⟩
  intro per wkOnly weOnly wds wndS wndE base
  exact fireLoopT_iters_le per (dayAllowedRow wkOnly weOnly wds) (windowBoundsAt wndS wndE)
    365 (base + per)

/-! ## Claim C9 -/

/-- Claim C9: `clear_snooze` is idempotent — the second application changes
no row (the matching rows already have `snooze_until = NULL` and all other
fields are untouched). -/
theorem clear_snooze_idempotent (uid rid : Int) (store : List Reminder) :
    clearSnooze uid rid (clearSnooze uid rid store) = clearSnooze uid rid store := by
  induction store with
  | nil => rfl
  | cons r rs ih =>
    simp only [clearSnooze, List.map_cons] at ih ⊢
    rw [ih]
    by_cases h : (r.user_id = uid ∧ r.id = rid) <;> simp [h]

/-! ## Claim C5 -/

/-- Rows of a store touched by `mark_reminder_sent` that match the
user/reminder id carry `last_sent_date = today` and a cleared snooze. -/
theorem mem_markReminderSent (uid rid : Int) (today : String) (store : List Reminder)
    (r : Reminder) (hr : r ∈ markReminderSent uid rid today store)
    (hu : r.user_id = uid) (hi : r.id = rid) :
    r.last_sent_date = some today ∧ r.snooze_until = none := by
  unfold markReminderSent at hr
  obtain ⟨a, _, heq⟩ := List.mem_map.mp hr
  by_cases h : (a.user_id = uid ∧ a.id = rid)
  · rw [if_pos h] at heq
    rw [← heq]
    exact ⟨rfl, rfl⟩
  · rw [if_neg h] at heq
    rw [← heq] at hu hi
    exact absurd ⟨hu, hi⟩ h

/-- `bump_periodic_next_fire` preserves a property of the matching rows
that is stable under its update (which only rewrites `next_fire_at` and
clears `snooze_until`). -/
theorem bump_preserves_marked (uid rid : Int) (now_iso today : String)
    (s1 st' : List Reminder)
    (h1 : ∀ a ∈ s1, a.user_id = uid → a.id = rid →
      a.last_sent_date = some today ∧ a.snooze_until = none)
    (hb : bumpPeriodicNextFire uid rid now_iso s1 = some st') :
    ∀ r ∈ st', r.user_id = uid → r.id = rid →
      r.last_sent_date = some today ∧ r.snooze_until = none := by
  unfold bumpPeriodicNextFire at hb
  split at hb
  · cases hb
    exact h1
  · split at hb
    · cases hb
      exact h1
    · split at hb
      · cases hb
      · cases hb
        intro r hr hu hi
        obtain ⟨a, ha, heq⟩ := List.mem_map.mp hr
        by_cases h : (a.user_id = uid ∧ a.id = rid)
        · rw [if_pos h] at heq
          rw [← heq]
          exact ⟨(h1 a ha h.1 h.2).1, rfl⟩
        · rw [if_neg h] at heq
          rw [← heq] at hu hi
          exact absurd ⟨hu, hi⟩ h

/-- Claim C5 is false as stated: a successful periodic dispatch does change
`last_sent_date`.  The loop's non-snooze branch calls `mark_reminder_sent`
unconditionally before bumping, so the periodic reminder's
`last_sent_date` becomes today where it was null before. -/
theorem periodic_dispatch_changes_last_sent :
    applyDispatch 7 ⟨1, none, "вода", true⟩ false "2025-06-02" "2025-06-02 09:00"
        [waterReminder]
      = some [waterReminderSent]
    ∧ waterReminderSent.last_sent_date ≠ waterReminder.last_sent_date := by
  constructor <;> decide

/-- Claim C5, amended: on a successful periodic dispatch the loop runs
`mark_reminder_sent` and then `bump_periodic_next_fire`, so the reminder
ends with `last_sent_date = today` (not unchanged) and a cleared
`snooze_until`; `last_sent_date` is set on every non-snooze dispatch,
periodic included. -/
theorem periodic_dispatch_state_update (uid : Int) (item : DueItem)
    (today now_iso : String) (store st' : List Reminder) (hp : item.periodic = true)
    (hd : applyDispatch uid item false today now_iso store = some st') :
    applyDispatch uid item false today now_iso store
      = bumpPeriodicNextFire uid item.id now_iso (markReminderSent uid item.id today store)
    ∧ ∀ r ∈ st', r.user_id = uid → r.id = item.id →
        r.last_sent_date = some today ∧ r.snooze_until = none := by
  have heq : applyDispatch uid item false today now_iso store
      = bumpPeriodicNextFire uid item.id now_iso
          (markReminderSent uid item.id today store) := by
    simp [applyDispatch, hp]
  refine ⟨heq, ?_⟩
  refine bump_preserves_marked uid item.id now_iso today
    (markReminderSent uid item.id today store) st' ?_ (heq ▸ hd)
  intro a ha hu hi
  exact mem_markReminderSent uid item.id today store a ha hu hi

/-- Witness for the amended C5 at the concrete fixture. -/
theorem periodic_dispatch_state_update_witness :
    waterReminderSent.last_sent_date = some "2025-06-02"
    ∧ waterReminderSent.snooze_until = none :=
  (periodic_dispatch_state_update 7 ⟨1, none, "вода", true⟩ "2025-06-02"
      "2025-06-02 09:00" [waterReminder] [waterReminderSent] rfl (by decide)).2
    waterReminderSent (by decide) rfl rfl

/-! ## Claim C6 -/

/-- Claim C6: any reminder with a due `snooze_until` is emitted by the
snooze pass with `is_snooze = True`, with no condition on
`last_sent_date` (or on anything else). -/
theorem snooze_pass_fires (store : List Reminder) (hhmm today : String) (widx : Int)
    (now_iso : String) (r : Reminder) (s : String) (hr : r ∈ store)
    (hs : r.snooze_until = some s) (hle : sqlLeStr s now_iso = true) :
    (r.user_id, (⟨r.id, some r.time_hhmm, r.text, false⟩ : DueItem), true)
      ∈ getDueReminders store hhmm today widx now_iso := by
  unfold getDueReminders
  refine List.mem_append_left _ (List.mem_append_right _ ?_)
  refine List.mem_map.mpr ⟨r, List.mem_filter.mpr ⟨hr, ?_⟩, rfl⟩
  simp [snoozeKeep, hs, hle]

/-- Witness for C6: a daily reminder already marked sent today, with a
snooze five minutes in the past, is still emitted (with the snooze flag)
at its own matching tick — where the time-match pass suppresses it. -/
theorem snooze_pass_fires_witness :
    (7, (⟨4, some "09:00", "обед", false⟩ : DueItem), true)
      ∈ getDueReminders [snoozedDaily] "09:00" "2025-06-02" 0 "2025-06-02 09:00" :=
  snooze_pass_fires [snoozedDaily] "09:00" "2025-06-02" 0 "2025-06-02 09:00"
    snoozedDaily "2025-06-02 08:55" (by decide) rfl (by decide)

/-! ## Claim C7 -/

/-- Claim C7 fails on the code: the `/snooze` handler never persists
anything.  `cmd_snooze` calls `storage.set_reminder_snooze(...)` without
`await`, so the store is unchanged on every path, even as the handler
replies that the reminder was postponed; an awaited `set_reminder_snooze`
would have changed the row. -/
theorem cmd_snooze_never_persists :
    (∀ (msg : String) (uid now : Int) (store : List Reminder),
      (cmdSnooze msg uid now store).1 = store)
    ∧ cmdSnooze "/snooze 1 10" 7 (tsOf 2025 6 2 9 0) [lunchReminder]
        = ([lunchReminder], "Напоминание [1] отложено на 10 минут")
    ∧ setReminderSnooze 7 1 (fmtTs (tsOf 2025 6 2 9 0 + 10)) [lunchReminder]
        ≠ [lunchReminder] := by
  refine ⟨?_, by decide, by decide⟩
  intro msg uid now store
  unfold cmdSnooze
  dsimp only
  split
  · rfl
  · split <;> rfl

/-! ## Claim C4 -/

/-- Claim C4 is false as stated: a creation request with a non-positive
period is not rejected.  With `period_minutes = 0` the call succeeds and
persists a row (stored as a plain non-periodic reminder, the falsy period
collapsing to `NULL`). -/
theorem nonpositive_period_persisted :
    addReminder 7 "09:00" "вода" none none false false (some 0) none none
        (tsOf 2025 6 2 8 0) 1 []
      = .ok ([{ id := 1, user_id := 7, time_hhmm := "09:00", text := "вода" }],
             ⟨1, "09:00", "вода"⟩) := by
  rfl

/-- Claim C4, amended: a bad time format is rejected synchronously with the
descriptive message, before anything is written; but a non-positive period
is accepted — the reminder is persisted (period 0 stored as `NULL`, a
negative period stored as-is) with no periodic `next_fire_at`; and invalid
day tokens are silently dropped by the command-layer day-list parse rather
than rejected (here the invalid token `яя` vanishes and `пн` survives). -/
theorem creation_validation :
    (∀ (uid : Int) (t txt : String) (d : Option String) (w : Option (List Int))
       (wko weo : Bool) (p : Option Int) (ws we : Option String) (now nid : Int)
       (store : List Reminder), parseTimeHM t = none →
       addReminder uid t txt d w wko weo p ws we now nid store = .error timeFormatError)
    ∧ (∀ (uid : Int) (t txt : String) (d : Option String) (w : Option (List Int))
       (wko weo : Bool) (p : Int) (ws we : Option String) (now nid : Int)
       (store : List Reminder) (hh mm : Nat),
       parseTimeHM t = some (hh, mm) → p ≤ 0 →
       ∃ row : Reminder,
         addReminder uid t txt d w wko weo (some p) ws we now nid store
           = .ok (store ++ [row], ⟨nid, pad2 hh ++ ":" ++ pad2 mm, pyStrip txt⟩)
         ∧ row.period_minutes = (if p = 0 then none else some p)
         ∧ row.next_fire_at = none)
    ∧ parseDaysPart "яя,пн" = [0] := by
  refine ⟨?_, ?_, by decide⟩
  · intro uid t txt d w wko weo p ws we now nid store h
    simp [addReminder, h]
  · intro uid t txt d w wko weo p ws we now nid store hh mm h hp
    have hlt : ¬(0 < p) := by omega
    simp only [addReminder, h]
    refine ⟨_, rfl, ?_, ?_⟩
    · by_cases h0 : p = 0 <;> simp [h0]
    · simp [if_neg hlt]

/-- Witness for the amended C4: a malformed time is rejected with the
message and nothing persisted; a negative period is accepted and stored. -/
theorem creation_validation_witness :
    addReminder 7 "25:00" "x" none none false false none none none 0 1 []
      = .error timeFormatError
    ∧ ∃ row : Reminder,
        addReminder 7 "09:30" "вода" none none false false (some (-5)) none none 0 1 []
          = .ok ([] ++ [row], ⟨1, pad2 9 ++ ":" ++ pad2 30, pyStrip "вода"⟩)
        ∧ row.period_minutes = some (-5) ∧ row.next_fire_at = none := by
  constructor
  · exact creation_validation.1 7 "25:00" "x" none none false false none none none
      0 1 [] rfl
  · obtain ⟨row, h1, h2, h3⟩ := creation_validation.2.1 7 "09:30" "вода" none none
      false false (-5) none none 0 1 [] 9 30 rfl (by decide)
    exact ⟨row, h1, by simpa using h2, h3⟩

/-! ## Claim C10 -/

/-- Claim C10: `delete_reminder` first tries the identifier as a real id of
the user's own rows; failing that, an identifier in `1..count` selects the
identifier-th reminder of the user's listing (time ascending, then id
ascending) and deletes it by its real id, returning `True`; `False` comes
back only when both lookups fail. -/
theorem delete_reminder_positional (store : List Reminder) (uid ident : Int) :
    ((∃ r ∈ store, r.user_id = uid ∧ r.id = ident) →
      (deleteReminder uid ident store).2 = true)
    ∧ ((∀ r ∈ store, ¬(r.user_id = uid ∧ r.id = ident)) →
      (0 ≤ ident - 1 ∧ ident - 1 < ((listReminders uid store).length : Int)) →
      deleteReminder uid ident store
        = (store.filter (fun r => ¬(r.user_id = uid
            ∧ r.id = ((listReminders uid store).getD (ident - 1).toNat default).id)),
           true))
    ∧ ((∀ r ∈ store, ¬(r.user_id = uid ∧ r.id = ident)) →
      ¬(0 ≤ ident - 1 ∧ ident - 1 < ((listReminders uid store).length : Int)) →
      deleteReminder uid ident store = (store, false)) := by
  refine ⟨?_, ?_, ?_⟩
  · rintro ⟨r, hr, hu, hi⟩
    have hmem : r ∈ store.filter (fun r => r.user_id = uid ∧ r.id = ident) :=
      List.mem_filter.mpr ⟨hr, by simp [hu, hi]⟩
    have hpos : 0 < (store.filter (fun r => r.user_id = uid ∧ r.id = ident)).length :=
      List.length_pos.mpr (List.ne_nil_of_mem hmem)
    simp only [deleteReminder, if_pos hpos]
  · intro hno hin
    have hnil : store.filter (fun r => r.user_id = uid ∧ r.id = ident) = [] := by
      refine List.filter_eq_nil_iff.mpr ?_
      intro a ha
      simpa using hno a ha
    simp only [deleteReminder, hnil, List.length_nil, lt_irrefl, if_pos hin]
    simp
  · intro hno hin
    have hnil : store.filter (fun r => r.user_id = uid ∧ r.id = ident) = [] := by
      refine List.filter_eq_nil_iff.mpr ?_
      intro a ha
      simpa using hno a ha
    simp only [deleteReminder, hnil, List.length_nil, lt_irrefl, if_neg hin]
    simp

/-- Witness for C10 on a three-row store: user 7 has no reminder with id 2,
but 2 is in range of the two-element listing `[id 5, id 3]`, so the second
listed reminder (id 3) is deleted and `True` is returned. -/
theorem delete_reminder_positional_witness :
    deleteReminder 7 2 [remB, remA, remC]
      = ([remB, remA, remC].filter (fun r => ¬(r.user_id = 7
          ∧ r.id = ((listReminders 7 [remB, remA, remC]).getD ((2 : Int) - 1).toNat default).id)),
         true) :=
  (delete_reminder_positional [remB, remA, remC] 7 2).2.1 (by decide) (by decide)

end VibeBot
